import Mathlib

/-
Shallow embedding of `fabfile.py` (django-skel management utilities).

Each Fabric task is modelled as a pure function from a `World` (which fixes,
for every shell command, whether it fails, and, for every question, how the
operator answers) and an `Env` (the Fabric environment context) to a
`TaskResult`: the ordered list of observable events (commands executed,
operator prompts shown), the final outcome, and the environment context after
the task.  `Outcome.userAbort` models Fabric's `abort(msg)` (non-zero exit
with a message); `Outcome.fatal` models the default behaviour of an
unwrapped `local` call whose command fails (Fabric halts the run with a
non-zero status).  Sequencing stops as soon as an outcome is not `ok`, so no
event of a subsequent step appears in the trace after an abort.
-/

namespace Fabfile

/-- Observable events: execution of a shell command via `local`, and an
interactive yes/no prompt shown to the operator via `confirm`. -/
inductive Event where
  | run (cmd : String)
  | prompt (q : String)
deriving DecidableEq

/-- Final outcome of a task: normal return, `abort(msg)` (operator-requested
stop, non-zero exit), or the fatal halt Fabric performs when an unwrapped
`local` command fails. -/
inductive Outcome where
  | ok
  | userAbort (msg : String)
  | fatal (cmd : String)
deriving DecidableEq

/-- The Fabric environment context.  `fabfile.py` reads a single key,
`env.run`, set once at module load (line 9). -/
structure Env where
  run : String
deriving DecidableEq

/-- `env.run = 'heroku run python manage.py'` (fabfile.py line 9). -/
def env0 : Env := ⟨"heroku run python manage.py"⟩

/-- The external world: which commands fail, and how the operator answers
each question (`true` = yes/continue, `false` = no/stop). -/
structure World where
  fails : String → Bool
  confirm : String → Bool

/-- Result of running a task: trace of events, outcome, environment after. -/
structure TaskResult where
  trace : List Event
  outcome : Outcome
  env : Env
deriving DecidableEq

/-- Fabric `local(cmd)` outside any `warn_only` block: the command runs; if
it fails, the whole run halts fatally with a non-zero status. -/
def runLocal (w : World) (e : Env) (cmd : String) : TaskResult :=
  if w.fails cmd then ⟨[Event.run cmd], Outcome.fatal cmd, e⟩
  else ⟨[Event.run cmd], Outcome.ok, e⟩

/-- `cont(cmd, message)` (fabfile.py lines 31-52): run `cmd` under
`settings(warn_only=True)` so its failure never halts by itself, then
`if message and result.failed and not confirm(message): abort(...)`.
The `confirm` prompt is evaluated (shown) only when `message` is truthy
(non-empty) and the command failed, mirroring Python short-circuiting. -/
def cont (w : World) (e : Env) (cmd message : String) : TaskResult :=
  if !message.isEmpty && w.fails cmd then
    if w.confirm message then
      ⟨[Event.run cmd, Event.prompt message], Outcome.ok, e⟩
    else
      ⟨[Event.run cmd, Event.prompt message],
       Outcome.userAbort "Stopped execution per user request.", e⟩
  else
    ⟨[Event.run cmd], Outcome.ok, e⟩

/-- Sequential composition: run the continuation only when the first step
returned normally; otherwise stop, keeping the first step's trace/outcome. -/
def andThen (r : TaskResult) (k : Env → TaskResult) : TaskResult :=
  if r.outcome = Outcome.ok then
    ⟨r.trace ++ (k r.env).trace, (k r.env).outcome, (k r.env).env⟩
  else r

/-- Python truthiness of an optional string argument (`if app:`). -/
def truthy : Option String → Bool
  | none => false
  | some s => !s.isEmpty

/-- `HEROKU_ADDONS` (fabfile.py lines 10-18). -/
def HEROKU_ADDONS : List String :=
  [ "cloudamqp:lemur",
    "heroku-postgresql:dev",
    "scheduler:standard",
    "memcachier:dev",
    "newrelic:standard",
    "pgbackups:auto-month",
    "sentry:developer" ]

/-- `HEROKU_CONFIGS` (fabfile.py lines 19-26); the template placeholders are
opaque text (braces written with escapes). -/
def HEROKU_CONFIGS : List String :=
  [ "BUILDPACK_URL=https://github.com/jbarone/heroku-buildpack-python-plus",
    "DJANGO_SETTINGS_MODULE=\x7b\x7b project_name \x7d\x7d.settings.prod",
    "SECRET_KEY=\"\x7b\x7b secret_key \x7d\x7d\"",
    "AWS_ACCESS_KEY_ID=xxx",
    "AWS_SECRET_ACCESS_KEY=xxx",
    "AWS_STORAGE_BUCKET_NAME=\x7b\x7b project_name \x7d\x7d" ]

/-- `syncdb` (fabfile.py lines 57-60). -/
def syncdb (w : World) (e : Env) : TaskResult :=
  runLocal w e (e.run ++ " syncdb --noinput")

/-- `migrate(app=None)` (fabfile.py lines 63-73): with a truthy `app` the
app name is interpolated; otherwise a site-wide migration is run. -/
def migrate (w : World) (e : Env) (app : Option String) : TaskResult :=
  if truthy app then
    runLocal w e (e.run ++ " migrate " ++ app.getD "" ++ " --noinput")
  else
    runLocal w e (e.run ++ " migrate --noinput")

/-- `south_init(app)` (fabfile.py lines 75-77). -/
def south_init (w : World) (e : Env) (app : String) : TaskResult :=
  runLocal w e ("python manage.py schemamigration " ++ app ++ " --initial")

/-- `south_update(app)` (fabfile.py lines 79-81). -/
def south_update (w : World) (e : Env) (app : String) : TaskResult :=
  runLocal w e ("python manage.py schemamigration " ++ app ++ " --auto")

/-- `collectstatic` (fabfile.py lines 86-89). -/
def collectstatic (w : World) (e : Env) : TaskResult :=
  runLocal w e (e.run ++ " collectstatic --noinput")

/-- `compress` (fabfile.py lines 92-95). -/
def compress (w : World) (e : Env) : TaskResult :=
  runLocal w e (e.run ++ " compress")

/-- The `initialize` task (fabfile.py lines 100-107; named `initializeTask`
here because its source name is a reserved word in Lean); the second
command's string carries its doubled braces verbatim since no `.format` is
applied. -/
def initializeTask (w : World) (e : Env) : TaskResult :=
  andThen (runLocal w e "rm -rf docs README.md") (fun e1 =>
  andThen (runLocal w e1 "echo /\x7b\x7b project_name \x7d\x7d/static > .gitignore") (fun e2 =>
  andThen (runLocal w e2 "git init") (fun e3 =>
  andThen (runLocal w e3 "git add .") (fun e4 =>
  runLocal w e4 "git commit -m \x27First commit\x27"))))

/-- `startapp(app)` (fabfile.py lines 109-114); `.format` collapses the
doubled braces of the template string to single braces. -/
def startapp (w : World) (e : Env) (app : String) : TaskResult :=
  andThen (runLocal w e ("mkdir \x7b project_name \x7d/apps/" ++ app)) (fun e1 =>
  runLocal w e1
    ("python manage.py startapp " ++ app ++ " \x7b project_name \x7d/apps/" ++ app))

/-- `update` (fabfile.py lines 119-131). -/
def update (w : World) (e : Env) : TaskResult :=
  andThen (cont w e "git push heroku master"
      "Couldn\x27t push your application to Heroku, continue anyway?") (fun e1 =>
  andThen (syncdb w e1) (fun e2 =>
  andThen (migrate w e2 none) (fun e3 =>
  andThen (collectstatic w e3) (fun e4 =>
  andThen (compress w e4) (fun e5 =>
  cont w e5 (e5.run ++ " newrelic-admin validate-config - stdout")
    "Couldn\x27t initialize New Relic, continue anyway?")))))

/-- The `for addon in HEROKU_ADDONS` loop of `bootstrap` (fabfile.py lines
152-155): one `cont` per entry, the add-on name interpolated into both the
command and the question. -/
def addonLoop (w : World) : Env → List String → TaskResult
  | e, [] => ⟨[], Outcome.ok, e⟩
  | e, addon :: rest =>
      andThen (cont w e ("heroku addons:add " ++ addon)
          ("Couldn\x27t add " ++ addon ++ " to your Heroku app, continue anyway?"))
        (fun e1 => addonLoop w e1 rest)

/-- The `for config in HEROKU_CONFIGS` loop of `bootstrap` (fabfile.py lines
157-160): the command template `'heroku config:add config'` and the question
`"Couldn't add config to your Heroku app, continue anyway?"` contain no
`\x7bconfig\x7d` replacement field, so `.format(config=config)` leaves both
unchanged and the loop variable is never interpolated. -/
def configLoop (w : World) : Env → List String → TaskResult
  | e, [] => ⟨[], Outcome.ok, e⟩
  | e, _config :: rest =>
      andThen (cont w e "heroku config:add config"
          "Couldn\x27t add config to your Heroku app, continue anyway?")
        (fun e1 => configLoop w e1 rest)

/-- Default application name used by `bootstrap` when `app` is falsy
(fabfile.py lines 146-147): the literal token has no space before the
closing braces. -/
def bootstrapApp (app : Option String) : String :=
  if truthy app then app.getD "" else "\x7b\x7b project_name\x7d\x7d"

/-- Default application name used by `destroy` when `app` is falsy
(fabfile.py lines 181-182): the literal token has a space before the
closing braces. -/
def destroyApp (app : Option String) : String :=
  if truthy app then app.getD "" else "\x7b\x7b project_name \x7d\x7d"

/-- `bootstrap(app=None)` (fabfile.py lines 133-171). -/
def bootstrap (w : World) (e : Env) (app : Option String) : TaskResult :=
  andThen (cont w e ("heroku apps:create " ++ bootstrapApp app)
      "Couldn\x27t create the Heroku app, continue anyway?") (fun e1 =>
  andThen (addonLoop w e1 HEROKU_ADDONS) (fun e2 =>
  andThen (configLoop w e2 HEROKU_CONFIGS) (fun e3 =>
  andThen (cont w e3 "git push heroku master"
      "Couldn\x27t push your application to Heroku, continue anyway?") (fun e4 =>
  andThen (syncdb w e4) (fun e5 =>
  andThen (migrate w e5 none) (fun e6 =>
  andThen (collectstatic w e6) (fun e7 =>
  andThen (compress w e7) (fun e8 =>
  cont w e8 (e8.run ++ " newrelic-admin validate-config - stdout")
    "Couldn\x27t initialize New Relic, continue anyway?"))))))))

/-- `destroy(app=None)` (fabfile.py lines 174-184): a bare `local`, not
routed through `cont`. -/
def destroy (w : World) (e : Env) (app : Option String) : TaskResult :=
  runLocal w e ("heroku apps:destroy --app " ++ destroyApp app)

/-- World in which every command succeeds and the operator always says yes. -/
def wAllOk : World := ⟨fun _ => false, fun _ => true⟩

/-- World in which every command fails and the operator always says yes. -/
def wAllFail : World := ⟨fun _ => true, fun _ => true⟩

/-- World in which every command fails and the operator always says no. -/
def wFailDecline : World := ⟨fun _ => true, fun _ => false⟩

/-! ### Helper lemmas -/

theorem runLocal_env (w : World) (e : Env) (cmd : String) :
    (runLocal w e cmd).env = e := by
  unfold runLocal
  split <;> rfl

theorem cont_env (w : World) (e : Env) (cmd message : String) :
    (cont w e cmd message).env = e := by
  unfold cont
  split
  · split <;> rfl
  · rfl

theorem andThen_env (r : TaskResult) (k : Env → TaskResult) (e : Env)
    (hr : r.env = e) (hk : ∀ e2, (k e2).env = e2) :
    (andThen r k).env = e := by
  unfold andThen
  split
  · rw [hk r.env, hr]
  · exact hr

theorem syncdb_env (w : World) (e : Env) : (syncdb w e).env = e :=
  runLocal_env w e _

theorem migrate_env (w : World) (e : Env) (app : Option String) :
    (migrate w e app).env = e := by
  unfold migrate
  split <;> exact runLocal_env w e _

theorem collectstatic_env (w : World) (e : Env) : (collectstatic w e).env = e :=
  runLocal_env w e _

theorem compress_env (w : World) (e : Env) : (compress w e).env = e :=
  runLocal_env w e _

theorem addonLoop_env (w : World) (l : List String) :
    ∀ e : Env, (addonLoop w e l).env = e := by
  induction l with
  | nil => intro e; rfl
  | cons a rest ih =>
      intro e
      show (andThen _ _).env = e
      exact andThen_env _ _ _ (cont_env w e _ _) ih

theorem configLoop_env (w : World) (l : List String) :
    ∀ e : Env, (configLoop w e l).env = e := by
  induction l with
  | nil => intro e; rfl
  | cons a rest ih =>
      intro e
      show (andThen _ _).env = e
      exact andThen_env _ _ _ (cont_env w e _ _) ih

theorem update_env (w : World) (e : Env) : (update w e).env = e := by
  unfold update
  apply andThen_env _ _ _ (cont_env w e _ _)
  intro e1
  apply andThen_env _ _ _ (syncdb_env w e1)
  intro e2
  apply andThen_env _ _ _ (migrate_env w e2 none)
  intro e3
  apply andThen_env _ _ _ (collectstatic_env w e3)
  intro e4
  apply andThen_env _ _ _ (compress_env w e4)
  intro e5
  exact cont_env w e5 _ _

theorem bootstrap_env (w : World) (e : Env) (app : Option String) :
    (bootstrap w e app).env = e := by
  unfold bootstrap
  apply andThen_env _ _ _ (cont_env w e _ _)
  intro e1
  apply andThen_env _ _ _ (addonLoop_env w HEROKU_ADDONS e1)
  intro e2
  apply andThen_env _ _ _ (configLoop_env w HEROKU_CONFIGS e2)
  intro e3
  apply andThen_env _ _ _ (cont_env w e3 _ _)
  intro e4
  apply andThen_env _ _ _ (syncdb_env w e4)
  intro e5
  apply andThen_env _ _ _ (migrate_env w e5 none)
  intro e6
  apply andThen_env _ _ _ (collectstatic_env w e6)
  intro e7
  apply andThen_env _ _ _ (compress_env w e7)
  intro e8
  exact cont_env w e8 _ _

theorem cont_of_success (w : World) (e : Env) (cmd q : String)
    (hs : w.fails cmd = false) :
    cont w e cmd q = ⟨[Event.run cmd], Outcome.ok, e⟩ := by
  unfold cont
  rw [hs]
  simp

theorem initializeTask_env (w : World) (e : Env) : (initializeTask w e).env = e := by
  unfold initializeTask
  apply andThen_env _ _ _ (runLocal_env w e _)
  intro e1
  apply andThen_env _ _ _ (runLocal_env w e1 _)
  intro e2
  apply andThen_env _ _ _ (runLocal_env w e2 _)
  intro e3
  apply andThen_env _ _ _ (runLocal_env w e3 _)
  intro e4
  exact runLocal_env w e4 _

theorem startapp_env (w : World) (e : Env) (app : String) :
    (startapp w e app).env = e := by
  unfold startapp
  apply andThen_env _ _ _ (runLocal_env w e _)
  intro e1
  exact runLocal_env w e1 _

theorem south_init_env (w : World) (e : Env) (app : String) :
    (south_init w e app).env = e :=
  runLocal_env w e _

theorem south_update_env (w : World) (e : Env) (app : String) :
    (south_update w e app).env = e :=
  runLocal_env w e _

theorem destroy_env (w : World) (e : Env) (app : Option String) :
    (destroy w e app).env = e :=
  runLocal_env w e _

theorem addonLoop_of_success (w : World) (l : List String) :
    ∀ e : Env, (∀ a ∈ l, w.fails ("heroku addons:add " ++ a) = false) →
      addonLoop w e l =
        ⟨l.map (fun a => Event.run ("heroku addons:add " ++ a)), Outcome.ok, e⟩ := by
  induction l with
  | nil => intro e _; rfl
  | cons a rest ih =>
      intro e h
      have h1 : w.fails ("heroku addons:add " ++ a) = false :=
        h a (List.mem_cons_self a rest)
      have h2 := ih e (fun b hb => h b (List.mem_cons_of_mem a hb))
      simp [addonLoop, cont, andThen, h1, h2]

/-! ### Claims -/

/-- C1: if the wrapped command fails and the question is non-empty, the
operator is prompted exactly once with the question; a decline aborts the
whole run with the fixed message `Stopped execution per user request.` (a
non-zero exit) and no subsequent step of the caller runs; an accept lets the
caller proceed normally. -/
theorem cont_failure_prompts_once (w : World) (e : Env) (cmd q : String)
    (hq : q.isEmpty = false) (hf : w.fails cmd = true) :
    (cont w e cmd q).trace = [Event.run cmd, Event.prompt q] ∧
    (cont w e cmd q).trace.count (Event.prompt q) = 1 ∧
    (w.confirm q = false →
      cont w e cmd q =
        ⟨[Event.run cmd, Event.prompt q],
         Outcome.userAbort "Stopped execution per user request.", e⟩ ∧
      ∀ k : Env → TaskResult, andThen (cont w e cmd q) k = cont w e cmd q) ∧
    (w.confirm q = true →
      (cont w e cmd q).outcome = Outcome.ok ∧
      (cont w e cmd q).env = e) := by
  have hcont : cont w e cmd q =
      if w.confirm q then
        ⟨[Event.run cmd, Event.prompt q], Outcome.ok, e⟩
      else
        ⟨[Event.run cmd, Event.prompt q],
         Outcome.userAbort "Stopped execution per user request.", e⟩ := by
    unfold cont
    rw [hq, hf]
    simp
  cases hc : w.confirm q with
  | false =>
      rw [hcont, if_neg (by rw [hc]; exact Bool.false_ne_true)]
      refine ⟨rfl, ?_, fun _ => ⟨rfl, fun k => ?_⟩, fun h => Bool.noConfusion h⟩
      · simp [List.count_cons]
      · unfold andThen
        rw [if_neg (by simp)]
  | true =>
      rw [hcont, if_pos (by rw [hc])]
      refine ⟨rfl, ?_, fun h => Bool.noConfusion h, fun _ => ⟨rfl, rfl⟩⟩
      simp [List.count_cons]

/-- C1 witness: concrete failing command with question `Continue?` and a
declining operator. -/
theorem cont_failure_prompts_once_witness :
    ("Continue?").isEmpty = false ∧
    wFailDecline.fails "false" = true ∧
    (cont wFailDecline env0 "false" "Continue?").trace
      = [Event.run "false", Event.prompt "Continue?"] ∧
    cont wFailDecline env0 "false" "Continue?" =
      ⟨[Event.run "false", Event.prompt "Continue?"],
       Outcome.userAbort "Stopped execution per user request.", env0⟩ :=
  ⟨rfl, rfl,
   (cont_failure_prompts_once wFailDecline env0 "false" "Continue?" rfl rfl).1,
   ((cont_failure_prompts_once wFailDecline env0 "false" "Continue?" rfl rfl).2.2.1 rfl).1⟩

/-- C2: if the wrapped command succeeds, the wrapper returns normally with no
prompt and no further effect, whatever the question string is. -/
theorem cont_success_no_prompt (w : World) (e : Env) (cmd q : String)
    (hs : w.fails cmd = false) :
    cont w e cmd q = ⟨[Event.run cmd], Outcome.ok, e⟩ :=
  cont_of_success w e cmd q hs

/-- C2 witness: concrete succeeding command with a non-empty question. -/
theorem cont_success_no_prompt_witness :
    wAllOk.fails "git push heroku master" = false ∧
    cont wAllOk env0 "git push heroku master" "Continue?"
      = ⟨[Event.run "git push heroku master"], Outcome.ok, env0⟩ :=
  ⟨rfl, cont_success_no_prompt wAllOk env0 "git push heroku master" "Continue?" rfl⟩

/-- C3: if the wrapped command fails but the question string is empty, no
prompt occurs and execution continues exactly as if the command had
succeeded. -/
theorem cont_empty_question_ignores_failure (w : World) (e : Env) (cmd q : String)
    (hq : q.isEmpty = true) (hf : w.fails cmd = true) :
    cont w e cmd q = ⟨[Event.run cmd], Outcome.ok, e⟩ ∧
    ∀ w2 : World, w2.fails cmd = false → cont w e cmd q = cont w2 e cmd q := by
  have h1 : cont w e cmd q = ⟨[Event.run cmd], Outcome.ok, e⟩ := by
    unfold cont
    rw [hq]
    simp
  refine ⟨h1, fun w2 hw2 => ?_⟩
  rw [h1, cont_of_success w2 e cmd q hw2]

/-- C3 witness: concrete failing command with the empty question. -/
theorem cont_empty_question_ignores_failure_witness :
    ("" : String).isEmpty = true ∧
    wAllFail.fails "false" = true ∧
    cont wAllFail env0 "false" "" = ⟨[Event.run "false"], Outcome.ok, env0⟩ :=
  ⟨rfl, rfl, (cont_empty_question_ignores_failure wAllFail env0 "false" "" rfl rfl).1⟩

/-- C4: the configuration-push loop of `bootstrap` issues one push command
per catalog entry, but the command is the fixed string
`heroku config:add config` (the format template has no replacement field),
so it does not contain the entry's key=value text: here the first catalog
entry is not a substring of the issued command. -/
theorem config_push_ignores_entries :
    (configLoop wAllOk env0 HEROKU_CONFIGS).trace
      = List.replicate HEROKU_CONFIGS.length (Event.run "heroku config:add config") ∧
    ¬ List.IsInfix
        ("BUILDPACK_URL=https://github.com/jbarone/heroku-buildpack-python-plus").data
        ("heroku config:add config").data := by
  constructor
  · rfl
  · decide

/-- C5: when the add-on installation commands succeed, the add-on catalog is
iterated exactly once in listed order with exactly one installation command
per entry, and each issued command contains that entry's identifier. -/
theorem bootstrap_addon_catalog (w : World) (e : Env)
    (h : ∀ a ∈ HEROKU_ADDONS, w.fails ("heroku addons:add " ++ a) = false) :
    addonLoop w e HEROKU_ADDONS =
      ⟨HEROKU_ADDONS.map (fun a => Event.run ("heroku addons:add " ++ a)),
       Outcome.ok, e⟩ ∧
    ∀ a ∈ HEROKU_ADDONS, List.IsInfix a.data ("heroku addons:add " ++ a).data :=
  ⟨addonLoop_of_success w HEROKU_ADDONS e h,
   fun a _ => ⟨("heroku addons:add ").data, [], by rw [String.data_append]; simp⟩⟩

/-- C5 witness: the concrete catalog in the all-success world. -/
theorem bootstrap_addon_catalog_witness :
    (∀ a ∈ HEROKU_ADDONS, wAllOk.fails ("heroku addons:add " ++ a) = false) ∧
    addonLoop wAllOk env0 HEROKU_ADDONS =
      ⟨HEROKU_ADDONS.map (fun a => Event.run ("heroku addons:add " ++ a)),
       Outcome.ok, env0⟩ :=
  ⟨fun a _ => rfl, (bootstrap_addon_catalog wAllOk env0 (fun a _ => rfl)).1⟩

/-- C6 counterexample: `bootstrap` and `destroy` do not substitute the same
default token — bootstrap's fallback (line 147) lacks the space before the
closing braces that destroy's fallback (line 182) has. -/
theorem bootstrap_destroy_default_differ : bootstrapApp none ≠ destroyApp none := by
  decide

/-- C6 (amended): with no explicit application name, `bootstrap` falls back
to the fixed token `\x7b\x7b project_name\x7d\x7d` and `destroy` to the fixed token
`\x7b\x7b project_name \x7d\x7d`; each substitutes its own token into its command, but
the two tokens differ by one space and are not the same string. -/
theorem bootstrap_destroy_default_tokens :
    bootstrapApp none = "\x7b\x7b project_name\x7d\x7d" ∧
    destroyApp none = "\x7b\x7b project_name \x7d\x7d" ∧
    (bootstrap wAllOk env0 none).trace.head?
      = some (Event.run ("heroku apps:create " ++ bootstrapApp none)) ∧
    destroy wAllOk env0 none =
      ⟨[Event.run ("heroku apps:destroy --app " ++ destroyApp none)],
       Outcome.ok, env0⟩ :=
  ⟨rfl, rfl, rfl, rfl⟩

/-- C7: when every external command succeeds, `update` runs code push, then
database sync, then whole-site migration (no app argument), then static
collection, then compression, then the New Relic check, in that order with
no step skipped. -/
theorem update_runs_all_steps (w : World) (e : Env) (h : ∀ c, w.fails c = false) :
    update w e =
      ⟨[Event.run "git push heroku master",
        Event.run (e.run ++ " syncdb --noinput"),
        Event.run (e.run ++ " migrate --noinput"),
        Event.run (e.run ++ " collectstatic --noinput"),
        Event.run (e.run ++ " compress"),
        Event.run (e.run ++ " newrelic-admin validate-config - stdout")],
       Outcome.ok, e⟩ := by
  simp [update, cont, syncdb, migrate, collectstatic, compress, runLocal, andThen,
        truthy, h]

/-- C7 witness: the all-success world with the startup environment. -/
theorem update_runs_all_steps_witness :
    (∀ c, wAllOk.fails c = false) ∧
    update wAllOk env0 =
      ⟨[Event.run "git push heroku master",
        Event.run "heroku run python manage.py syncdb --noinput",
        Event.run "heroku run python manage.py migrate --noinput",
        Event.run "heroku run python manage.py collectstatic --noinput",
        Event.run "heroku run python manage.py compress",
        Event.run "heroku run python manage.py newrelic-admin validate-config - stdout"],
       Outcome.ok, env0⟩ :=
  ⟨fun c => rfl, by
    have h := update_runs_all_steps wAllOk env0 (fun c => rfl)
    rw [h]
    rfl⟩

/-- C8: no task mutates the environment context — after each of the eleven
tasks the environment mapping equals what it was before, for every world,
environment and argument. -/
theorem tasks_read_only_env (w : World) (e : Env) (app : Option String) (a : String) :
    (syncdb w e).env = e ∧
    (migrate w e app).env = e ∧
    (south_init w e a).env = e ∧
    (south_update w e a).env = e ∧
    (collectstatic w e).env = e ∧
    (compress w e).env = e ∧
    (initializeTask w e).env = e ∧
    (startapp w e a).env = e ∧
    (update w e).env = e ∧
    (bootstrap w e app).env = e ∧
    (destroy w e app).env = e :=
  ⟨syncdb_env w e, migrate_env w e app, south_init_env w e a, south_update_env w e a,
   collectstatic_env w e, compress_env w e, initializeTask_env w e, startapp_env w e a,
   update_env w e, bootstrap_env w e app, destroy_env w e app⟩

/-- C9: for every application-name argument, world of command outcomes and
operator responses, `bootstrap` is exactly its three provisioning steps
(create app, add-on loop, configuration loop) followed by precisely the
step sequence of `update` — same commands, same wrapping, same questions. -/
theorem bootstrap_tail_is_update (w : World) (e : Env) (app : Option String) :
    bootstrap w e app =
      andThen (cont w e ("heroku apps:create " ++ bootstrapApp app)
          "Couldn\x27t create the Heroku app, continue anyway?") (fun e1 =>
      andThen (addonLoop w e1 HEROKU_ADDONS) (fun e2 =>
      andThen (configLoop w e2 HEROKU_CONFIGS) (fun e3 =>
      update w e3))) :=
  rfl

/-- C10: `destroy` issues its teardown command directly, never through the
confirmation wrapper: its trace is the bare command with no prompt for any
question, and on failure the outcome is the fatal unwrapped halt. -/
theorem destroy_unwrapped (w : World) (e : Env) (app : Option String) :
    (destroy w e app).trace
      = [Event.run ("heroku apps:destroy --app " ++ destroyApp app)] ∧
    (∀ q, Event.prompt q ∉ (destroy w e app).trace) ∧
    (w.fails ("heroku apps:destroy --app " ++ destroyApp app) = true →
      (destroy w e app).outcome
        = Outcome.fatal ("heroku apps:destroy --app " ++ destroyApp app)) := by
  unfold destroy runLocal
  by_cases hf : w.fails ("heroku apps:destroy --app " ++ destroyApp app) = true
  · rw [if_pos hf]
    exact ⟨rfl, fun q => by simp, fun _ => rfl⟩
  · rw [if_neg hf]
    exact ⟨rfl, fun q => by simp, fun h => absurd h hf⟩

/-- C10 witness: the all-failure world with no explicit application name. -/
theorem destroy_unwrapped_witness :
    wAllFail.fails ("heroku apps:destroy --app " ++ destroyApp none) = true ∧
    (destroy wAllFail env0 none).outcome
      = Outcome.fatal ("heroku apps:destroy --app " ++ destroyApp none) :=
  ⟨rfl, (destroy_unwrapped wAllFail env0 none).2.2 rfl⟩

end Fabfile
